import Mathlib

/-!
Shallow embedding of the astrosee scoring and window-search core.

Numeric values are modelled as rationals (`ℚ`); timestamps are rationals
measured in hours.  Each definition mirrors one Python function of the
repository:

* `clamp`, `linear_interpolate`        — astrosee/core/utils.py
* `WeatherData` and the component scorers / penalty calculators
                                       — astrosee/scoring/components.py
                                         and astrosee/weather/models.py
* `Weights`, `scoringEngineInit`, `calculate_score`
                                       — astrosee/scoring/engine.py
* `find_contiguous_windows`, `find_best_window`
                                       — astrosee/services/forecast.py
* `find_altitude_windows`, `find_imaging_windows`
                                       — astrosee/services/timelapse.py
-/

/-- Model of `clamp(value, min_val, max_val)`: `max(min_val, min(max_val, value))`. -/
def clamp (value min_val max_val : ℚ) : ℚ :=
  max min_val (min max_val value)

/-- Model of `linear_interpolate(value, in_min, in_max, out_min, out_max)`.
The Python function guards only against `in_max == in_min`; it never clamps
`value` into the input range, so it extrapolates outside it. -/
def linear_interpolate (value in_min in_max out_min out_max : ℚ) : ℚ :=
  if in_max = in_min then out_min
  else out_min + (value - in_min) / (in_max - in_min) * (out_max - out_min)

/-- Model of `WeatherData` (astrosee/weather/models.py).  The pydantic model
constrains `humidity`, `cloud_cover`, the cloud layers and
`precipitation_probability` to `[0, 100]`; those invariants appear as
hypotheses of theorems that need them.  `timestamp` is in hours. -/
structure WeatherData where
  timestamp : ℚ
  temperature : ℚ
  dew_point : ℚ
  wind_speed_10m : ℚ
  wind_speed_80m : Option ℚ
  wind_gusts : ℚ
  wind_direction : ℚ
  humidity : ℚ
  cloud_cover : ℚ
  cloud_cover_low : Option ℚ
  cloud_cover_mid : Option ℚ
  cloud_cover_high : Option ℚ
  pressure : ℚ
  jet_stream_speed : Option ℚ
  precipitation : ℚ
  precipitation_probability : Option ℚ
deriving DecidableEq

/-- Derived property `WeatherData.temperature_differential`: `temperature - dew_point`. -/
def WeatherData.temperature_differential (w : WeatherData) : ℚ :=
  w.temperature - w.dew_point

/-- Derived property `WeatherData.wind_shear`: `abs(wind_speed_80m - wind_speed_10m)`
when the 80 m wind is available, else `None`. -/
def WeatherData.wind_shear (w : WeatherData) : Option ℚ :=
  w.wind_speed_80m.map (fun w80 => |w80 - w.wind_speed_10m|)

/-- Model of `calculate_temperature_differential_score` (components.py). -/
def calculate_temperature_differential_score (weather : WeatherData) : ℚ :=
  let diff := weather.temperature_differential
  if 15 ≤ diff then 100
  else if 10 ≤ diff then linear_interpolate diff 10 15 90 100
  else if 5 ≤ diff then linear_interpolate diff 5 10 70 90
  else if 2 ≤ diff then linear_interpolate diff 2 5 40 70
  else linear_interpolate diff 0 2 10 40

/-- Model of `calculate_wind_stability_score` (components.py). -/
def calculate_wind_stability_score (weather : WeatherData) : ℚ :=
  let wind_speed := weather.wind_speed_10m
  let gusts := weather.wind_gusts
  let gust_ratio := gusts / max wind_speed (1/10)
  let wind_score :=
    if wind_speed ≤ 2 then (100 : ℚ)
    else if wind_speed ≤ 5 then linear_interpolate wind_speed 2 5 80 100
    else if wind_speed ≤ 10 then linear_interpolate wind_speed 5 10 50 80
    else max 10 (linear_interpolate wind_speed 10 20 20 50)
  let after_gusts :=
    if 2 < gust_ratio then wind_score - linear_interpolate gust_ratio 2 4 0 30
    else wind_score
  let after_shear :=
    match weather.wind_shear with
    | none => after_gusts
    | some shear =>
        if 5 < shear then after_gusts - linear_interpolate shear 5 15 0 20
        else after_gusts
  clamp after_shear 0 100

/-- Model of `calculate_humidity_score` (components.py). -/
def calculate_humidity_score (weather : WeatherData) : ℚ :=
  let humidity := weather.humidity
  if humidity ≤ 30 then 100
  else if humidity ≤ 50 then linear_interpolate humidity 30 50 85 100
  else if humidity ≤ 70 then linear_interpolate humidity 50 70 60 85
  else if humidity ≤ 85 then linear_interpolate humidity 70 85 35 60
  else if humidity ≤ 95 then linear_interpolate humidity 85 95 15 35
  else linear_interpolate humidity 95 100 0 15

/-- Model of `calculate_cloud_cover_score` (components.py). -/
def calculate_cloud_cover_score (weather : WeatherData) : ℚ :=
  let total_cloud := weather.cloud_cover
  let base_score :=
    if total_cloud ≤ 5 then (100 : ℚ)
    else if total_cloud ≤ 20 then linear_interpolate total_cloud 5 20 85 100
    else if total_cloud ≤ 50 then linear_interpolate total_cloud 20 50 50 85
    else if total_cloud ≤ 80 then linear_interpolate total_cloud 50 80 20 50
    else linear_interpolate total_cloud 80 100 0 20
  let adjusted :=
    match weather.cloud_cover_low, weather.cloud_cover_high with
    | some low_cloud, some high_cloud =>
        if low_cloud * 2 < high_cloud then
          min 100 (base_score + min 10 ((high_cloud - low_cloud) * (1/5)))
        else if high_cloud * 2 < low_cloud then
          max 0 (base_score - min 15 ((low_cloud - high_cloud) * (3/10)))
        else base_score
    | _, _ => base_score
  clamp adjusted 0 100

/-- Model of `calculate_jet_stream_score` (components.py); missing jet-stream
data defaults to the neutral score 75. -/
def calculate_jet_stream_score (weather : WeatherData) : ℚ :=
  match weather.jet_stream_speed with
  | none => 75
  | some jet_speed =>
      if jet_speed ≤ 15 then 100
      else if jet_speed ≤ 30 then linear_interpolate jet_speed 15 30 85 100
      else if jet_speed ≤ 45 then linear_interpolate jet_speed 30 45 60 85
      else if jet_speed ≤ 60 then linear_interpolate jet_speed 45 60 35 60
      else linear_interpolate jet_speed 60 100 10 35

/-- Model of `calculate_moon_penalty` (components.py). -/
def calculate_moon_penalty (illumination moon_altitude : ℚ) (is_deep_sky : Bool) : ℚ :=
  if moon_altitude ≤ 0 then 1
  else if is_deep_sky = false then 1
  else
    let altitude_factor := min 1 (moon_altitude / 45)
    let illumination_factor := illumination / 100
    let penalty_strength := altitude_factor * illumination_factor
    1 - penalty_strength * (1/2)

/-- Model of `calculate_airmass_penalty` (components.py). -/
def calculate_airmass_penalty (airmass : ℚ) : ℚ :=
  if airmass ≤ 6/5 then 1
  else if airmass ≤ 3/2 then linear_interpolate airmass (6/5) (3/2) (19/20) 1
  else if airmass ≤ 2 then linear_interpolate airmass (3/2) 2 (17/20) (19/20)
  else if airmass ≤ 3 then linear_interpolate airmass 2 3 (13/20) (17/20)
  else linear_interpolate airmass 3 5 (1/2) (13/20)

/-- Model of `calculate_precipitation_penalty` (components.py); a missing
probability (`None`, like `0`) falls through `or 0` to `0`. -/
def calculate_precipitation_penalty (weather : WeatherData) : ℚ :=
  if 0 < weather.precipitation then 1/10
  else
    let prob := weather.precipitation_probability.getD 0
    if 80 < prob then 3/10
    else if 50 < prob then linear_interpolate prob 50 80 (3/5) (3/10)
    else if 20 < prob then linear_interpolate prob 20 50 (9/10) (3/5)
    else 1

/-- Component weights of the scoring engine, one field per named component
(the Python code uses a dict with exactly these five keys). -/
structure Weights where
  temperature_differential : ℚ
  wind_stability : ℚ
  humidity : ℚ
  cloud_cover : ℚ
  jet_stream : ℚ
deriving DecidableEq

/-- Sum of the five weights, `sum(self.weights.values())` in the source. -/
def Weights.total (w : Weights) : ℚ :=
  w.temperature_differential + w.wind_stability + w.humidity + w.cloud_cover + w.jet_stream

/-- Model of `ScoringEngine.DEFAULT_WEIGHTS`. -/
def DEFAULT_WEIGHTS : Weights :=
  ⟨1/4, 3/10, 3/20, 1/5, 1/10⟩

/-- Model of `ScoringEngine.__init__`: take the given weights (or the default
when `None`), and divide every weight by the total exactly when the total
differs from `1.0` by more than `0.01`. -/
def scoringEngineInit (weights : Option Weights) : Weights :=
  let w := weights.getD DEFAULT_WEIGHTS
  if 1/100 < |w.total - 1| then
    ⟨w.temperature_differential / w.total, w.wind_stability / w.total,
     w.humidity / w.total, w.cloud_cover / w.total, w.jet_stream / w.total⟩
  else w

/-- Component scores of one `SeeingScore` (the `component_scores` dict). -/
structure ComponentScores where
  temperature_differential : ℚ
  wind_stability : ℚ
  humidity : ℚ
  cloud_cover : ℚ
  jet_stream : ℚ
deriving DecidableEq

/-- Penalty map of one `SeeingScore`: the Python dict holds a key exactly when
the corresponding multiplier is `< 1.0`, modelled by an `Option` per key. -/
structure Penalties where
  moon : Option ℚ
  airmass : Option ℚ
  precipitation : Option ℚ
deriving DecidableEq

/-- Model of the `SeeingScore` result record. -/
structure SeeingScore where
  total_score : ℚ
  component_scores : ComponentScores
  penalties : Penalties
  timestamp : ℚ
deriving DecidableEq

/-- Round-half-to-even of a rational to an integer, the rounding mode of
Python's builtin `round`. -/
def roundHalfEven (q : ℚ) : ℤ :=
  if q - ⌊q⌋ < 1/2 then ⌊q⌋
  else if 1/2 < q - ⌊q⌋ then ⌊q⌋ + 1
  else if Even ⌊q⌋ then ⌊q⌋ else ⌊q⌋ + 1

/-- Model of Python's `round(x, 1)`: round `10 * x` half-to-even, divide by 10. -/
def pythonRound1 (q : ℚ) : ℚ :=
  (roundHalfEven (10 * q) : ℚ) / 10

/-- Model of `ScoringEngine.calculate_score` (engine.py), with the engine's
effective weights passed explicitly (the Python method reads `self.weights`).
Multiplying by `getD 1` mirrors the loop over `penalties.values()`: a
multiplier not recorded in the dict contributes the neutral factor 1. -/
def calculate_score (weights : Weights) (weather : WeatherData)
    (moon_illumination moon_altitude : ℚ) (airmass : Option ℚ)
    (is_deep_sky : Bool) : SeeingScore :=
  let components : ComponentScores :=
    ⟨calculate_temperature_differential_score weather,
     calculate_wind_stability_score weather,
     calculate_humidity_score weather,
     calculate_cloud_cover_score weather,
     calculate_jet_stream_score weather⟩
  let base_score :=
    components.temperature_differential * weights.temperature_differential +
    components.wind_stability * weights.wind_stability +
    components.humidity * weights.humidity +
    components.cloud_cover * weights.cloud_cover +
    components.jet_stream * weights.jet_stream
  let moon_penalty := calculate_moon_penalty moon_illumination moon_altitude is_deep_sky
  let penalty_moon : Option ℚ := if moon_penalty < 1 then some moon_penalty else none
  let penalty_airmass : Option ℚ :=
    match airmass with
    | none => none
    | some a =>
        let ap := calculate_airmass_penalty a
        if ap < 1 then some ap else none
  let precip_penalty := calculate_precipitation_penalty weather
  let penalty_precip : Option ℚ := if precip_penalty < 1 then some precip_penalty else none
  let final_score :=
    base_score * (penalty_moon.getD 1) * (penalty_airmass.getD 1) * (penalty_precip.getD 1)
  let clamped := max 0 (min 100 final_score)
  ⟨pythonRound1 clamped, components, ⟨penalty_moon, penalty_airmass, penalty_precip⟩,
   weather.timestamp⟩

/-- Projection of the `SeeingForecast` entry (scoring/models.py) onto the fields
the window finders read: `timestamp` (hours), `score.total_score` and
`is_night`. -/
structure SeeingForecast where
  timestamp : ℚ
  total_score : ℚ
  is_night : Bool
deriving DecidableEq

/-- Model of the `ObservingWindow` record (scoring/models.py); the Python field
`end` is a Lean keyword and is called `end_time` here. -/
structure ObservingWindow where
  start : ℚ
  end_time : ℚ
  average_score : ℚ
  peak_score : ℚ
  peak_time : ℚ
  forecasts : List SeeingForecast
deriving DecidableEq

/-- Maximum of a list of rationals; Python's `max` on a nonempty list. -/
def list_max : List ℚ → ℚ
  | [] => 0
  | a :: t => t.foldl max a

/-- Fallback forecast used only to totalize partial lookups; the source only
ever applies the corresponding operations to nonempty lists. -/
def dummyForecast : SeeingForecast := ⟨0, 0, false⟩

/-- Model of `ForecastService._create_window`: average (`statistics.mean`),
peak score (`max`) and peak time (timestamp of the first forecast whose score
equals the peak, as `scores.index(peak_score)` finds the first occurrence). -/
def create_window (forecasts : List SeeingForecast) : ObservingWindow :=
  let scores := forecasts.map (fun f => f.total_score)
  let avg_score := scores.sum / (scores.length : ℚ)
  let peak_score := list_max scores
  let peak_fc := (forecasts.find? (fun f => f.total_score == peak_score)).getD dummyForecast
  { start := ((forecasts.head?).getD dummyForecast).timestamp
    end_time := ((forecasts.getLast?).getD dummyForecast).timestamp
    average_score := avg_score
    peak_score := peak_score
    peak_time := peak_fc.timestamp
    forecasts := forecasts }

/-- Loop of `ForecastService._find_contiguous_windows`: `current_window` is the
accumulating run; a sample within 2 hours of the run's last sample extends the
run, a larger gap closes it (emitting it when it has at least `min_hours`
members), and the final run is closed at the end of the sequence. -/
def fcw_aux (min_hours : ℕ) (current_window : List SeeingForecast) :
    List SeeingForecast → List ObservingWindow
  | [] =>
      if min_hours ≤ current_window.length then [create_window current_window] else []
  | f :: rest =>
      match current_window.getLast? with
      | none => fcw_aux min_hours [f] rest
      | some last_f =>
          if f.timestamp - last_f.timestamp ≤ 2 then
            fcw_aux min_hours (current_window ++ [f]) rest
          else
            (if min_hours ≤ current_window.length then [create_window current_window] else [])
              ++ fcw_aux min_hours [f] rest

/-- Model of `ForecastService._find_contiguous_windows`. -/
def find_contiguous_windows (forecasts : List SeeingForecast) (min_hours : ℕ) :
    List ObservingWindow :=
  if forecasts.isEmpty then [] else fcw_aux min_hours [] forecasts

/-- Python's `max(windows, key=lambda w: w.average_score)` on a nonempty list:
keep the first window, replacing it only on a strictly larger average. -/
def max_by_avg (w : ObservingWindow) (ws : List ObservingWindow) : ObservingWindow :=
  ws.foldl (fun best x => if best.average_score < x.average_score then x else best) w

/-- Model of `ForecastService.find_best_window`, taking the already-fetched
forecast sequence as input (the Python method awaits it from the seeing
service). -/
def find_best_window (forecasts : List SeeingForecast) (min_score : ℚ)
    (min_duration_hours : ℕ) : Option ObservingWindow :=
  if forecasts.isEmpty then none
  else
    let suitable := forecasts.filter (fun f => f.is_night && decide (min_score ≤ f.total_score))
    if suitable.length < min_duration_hours then none
    else
      match find_contiguous_windows suitable min_duration_hours with
      | [] => none
      | w :: ws => some (max_by_avg w ws)

/-- One entry of the `visibility_data` list built by
`TimelapseService.find_imaging_windows`: a forecast together with the target's
altitude and azimuth at that hour. -/
structure VisibilityEntry where
  forecast : SeeingForecast
  altitude : ℚ
  azimuth : ℚ
deriving DecidableEq

/-- Suitability test of `TimelapseService._find_altitude_windows`: night,
target above the minimum altitude, and score at least `min_score`. -/
def is_suitable (min_altitude min_score : ℚ) (v : VisibilityEntry) : Bool :=
  v.forecast.is_night && decide (min_altitude ≤ v.altitude)
    && decide (min_score ≤ v.forecast.total_score)

/-- Fallback entry used only to totalize partial lookups. -/
def dummyEntry : VisibilityEntry := ⟨dummyForecast, 0, 0⟩

/-- Model of `TimelapseService._window_duration_hours`: `1.0` for fewer than
two entries, otherwise last timestamp minus first timestamp (in hours). -/
def window_duration_hours (window_data : List VisibilityEntry) : ℚ :=
  if window_data.length < 2 then 1
  else ((window_data.getLast?).getD dummyEntry).forecast.timestamp
        - ((window_data.head?).getD dummyEntry).forecast.timestamp

/-- Loop of `TimelapseService._find_altitude_windows`: suitable samples within
2 hours of the run's last sample extend the run; an unsuitable sample or a
larger gap closes it, emitting it when its duration (not its member count)
reaches `min_duration_hours`. -/
def faw_aux (min_altitude min_duration_hours min_score : ℚ)
    (current_window : List VisibilityEntry) :
    List VisibilityEntry → List (List VisibilityEntry)
  | [] =>
      if current_window ≠ [] ∧ min_duration_hours ≤ window_duration_hours current_window then
        [current_window]
      else []
  | v :: rest =>
      if is_suitable min_altitude min_score v then
        match current_window.getLast? with
        | none => faw_aux min_altitude min_duration_hours min_score [v] rest
        | some last_v =>
            if v.forecast.timestamp - last_v.forecast.timestamp ≤ 2 then
              faw_aux min_altitude min_duration_hours min_score (current_window ++ [v]) rest
            else
              (if min_duration_hours ≤ window_duration_hours current_window then
                  [current_window]
                else [])
                ++ faw_aux min_altitude min_duration_hours min_score [v] rest
      else
        (if current_window ≠ [] ∧ min_duration_hours ≤ window_duration_hours current_window then
            [current_window]
          else [])
          ++ faw_aux min_altitude min_duration_hours min_score [] rest

/-- Model of `TimelapseService._find_altitude_windows`. -/
def find_altitude_windows (visibility_data : List VisibilityEntry)
    (min_altitude min_duration_hours min_score : ℚ) : List (List VisibilityEntry) :=
  faw_aux min_altitude min_duration_hours min_score [] visibility_data

/-- Insertion step of a stable descending sort by `key` (Python's
`list.sort(key=..., reverse=True)`). -/
def sort_desc_insert {W : Type} (key : W → ℚ) (x : W) : List W → List W
  | [] => [x]
  | y :: ys => if key y < key x then x :: y :: ys else y :: sort_desc_insert key x ys

/-- Stable descending insertion sort by `key`. -/
def sort_desc_by {W : Type} (key : W → ℚ) : List W → List W
  | [] => []
  | x :: xs => sort_desc_insert key x (sort_desc_by key xs)

/-- Model of `TimelapseService.find_imaging_windows` around the window search:
`target` is the catalog lookup result (`None` when the target name resolves to
nothing), `visibility_data` the per-hour entries built from the forecast (empty
iff the forecast is empty), and `create` stands for
`_create_timelapse_window target location`, whose output depends on the
external astronomy oracle and which returns `None` for an empty window; created
windows are sorted by `key` (average score) descending. -/
def find_imaging_windows {W : Type} (target : Option Unit)
    (visibility_data : List VisibilityEntry)
    (min_altitude min_duration_hours min_score : ℚ)
    (create : List VisibilityEntry → Option W) (key : W → ℚ) : List W :=
  match target with
  | none => []
  | some _ =>
      if visibility_data.isEmpty then []
      else
        let windows :=
          find_altitude_windows visibility_data min_altitude min_duration_hours min_score
        sort_desc_by key (windows.filterMap create)

/-- Weather sample with all constrained fields in range, dew point above the
surface temperature (differential `-2` °C) and every optional field absent. -/
def condensationW : WeatherData :=
  ⟨0, 10, 12, 0, none, 0, 0, 50, 0, none, none, none, 1013, none, 0, none⟩

/-- Weather sample with an extreme 250 hPa jet-stream speed of 300 m/s. -/
def strongJetW : WeatherData :=
  { condensationW with temperature := 20, dew_point := 5, jet_stream_speed := some 300 }

/-- Weather sample with wind 2.5 m/s, no gusts and no 80 m wind data. -/
def windA : WeatherData :=
  ⟨0, 20, 5, 5/2, none, 0, 0, 50, 0, none, none, none, 1013, none, 0, none⟩

/-- Same sample as `windA` with the 10 m wind raised to 5 m/s. -/
def windB : WeatherData :=
  { windA with wind_speed_10m := 5 }

/-- The `poor_weather` fixture of tests/conftest.py. -/
def poorWindW : WeatherData :=
  ⟨0, 15, 14, 8, some 15, 18, 270, 95, 85, some 70, some 50, some 30, 1005, some 65, 1/2, some 80⟩

/-- Weather sample with relative humidity 90 %. -/
def humA : WeatherData :=
  ⟨0, 20, 5, 0, none, 0, 0, 90, 0, none, none, none, 1013, none, 0, none⟩

/-- Same sample as `humA` with humidity raised to 95 %. -/
def humB : WeatherData :=
  { humA with humidity := 95 }

/-- Positive weight configuration summing to `201/200 = 1.005`, within the
engine's `0.01` normalization tolerance but not equal to 1. -/
def offWeights : Weights :=
  ⟨1/4, 3/10, 3/20, 1/5, 21/200⟩

/-- Two consecutive hourly night forecasts with score 80. -/
def exF0 : SeeingForecast := ⟨0, 80, true⟩

/-- Second forecast of the hourly example pair, one hour after `exF0`. -/
def exF1 : SeeingForecast := ⟨1, 80, true⟩

/-- Visibility entry for `exF0` with target altitude 50°. -/
def exV0 : VisibilityEntry := ⟨exF0, 50, 120⟩

/-- Visibility entry for `exF1` with target altitude 50°. -/
def exV1 : VisibilityEntry := ⟨exF1, 50, 120⟩

/-- C1: the claim that every component scorer stays in `[0,100]` fails on the
code.  With humidity, cloud cover and precipitation probability in range but
dew point above temperature, the temperature-differential scorer extrapolates
to `-20`; with a 300 m/s jet-stream speed the jet-stream scorer extrapolates
to `160`. -/
theorem component_scores_escape_range :
    calculate_temperature_differential_score condensationW = -20 ∧
    calculate_temperature_differential_score condensationW < 0 ∧
    calculate_jet_stream_score strongJetW = 160 ∧
    100 < calculate_jet_stream_score strongJetW ∧
    0 ≤ condensationW.humidity ∧ condensationW.humidity ≤ 100 ∧
    0 ≤ condensationW.cloud_cover ∧ condensationW.cloud_cover ≤ 100 := by
  norm_num [calculate_temperature_differential_score, calculate_jet_stream_score,
    condensationW, strongJetW, WeatherData.temperature_differential, linear_interpolate]

/-- C4: the wind-stability score is not monotone non-increasing beyond 2 m/s.
With gusts and 80 m wind held fixed, raising the 10 m wind from 2.5 to 5 m/s
raises the score from `250/3` to `100`; moreover on the repository's own
`poor_weather` test fixture the scorer returns `241/4 = 60.25`, failing the
test's `score < 60` assertion. -/
theorem wind_stability_increases_beyond_two :
    2 ≤ windA.wind_speed_10m ∧
    windA.wind_speed_10m < windB.wind_speed_10m ∧
    windA.wind_gusts = windB.wind_gusts ∧
    windA.wind_speed_80m = windB.wind_speed_80m ∧
    calculate_wind_stability_score windA = 250/3 ∧
    calculate_wind_stability_score windB = 100 ∧
    calculate_wind_stability_score windA < calculate_wind_stability_score windB ∧
    calculate_wind_stability_score poorWindW = 241/4 := by
  have habs : |(15 : ℚ) - 8| = 7 := by
    rw [show (15 : ℚ) - 8 = 7 by norm_num, abs_of_nonneg (by norm_num : (0 : ℚ) ≤ 7)]
  norm_num [calculate_wind_stability_score, clamp, WeatherData.wind_shear,
    windA, windB, poorWindW, linear_interpolate, habs]

/-- C5: the humidity score is not monotone non-increasing.  Raising humidity
from 90 % to 95 % (all other fields equal) raises the score from 25 to 35;
the repository's own `test_humidity_wet` expects a score below 30 at 95 %
humidity but the code returns 35. -/
theorem humidity_score_increases :
    humA.humidity ≤ humB.humidity ∧
    0 ≤ humA.humidity ∧ humB.humidity ≤ 100 ∧
    calculate_humidity_score humA = 25 ∧
    calculate_humidity_score humB = 35 ∧
    calculate_humidity_score humA < calculate_humidity_score humB := by
  norm_num [calculate_humidity_score, humA, humB, linear_interpolate]

/-- C6: the airmass penalty is not capped at airmass 5.  The final branch
extrapolates past 0.65: at airmass 7 the multiplier is `4/5 = 0.8` rather
than 0.65, and at airmass 10 it is `41/40 = 1.025`, outside the documented
`[0.5, 1.0]` range. -/
theorem airmass_penalty_exceeds_cap :
    calculate_airmass_penalty 7 = 4/5 ∧
    calculate_airmass_penalty 10 = 41/40 ∧
    1 < calculate_airmass_penalty 10 := by
  norm_num [calculate_airmass_penalty, linear_interpolate]

/-- C7: the airmass penalty at airmass 1.0 is exactly 1.0, but at airmass 3.0
the code returns `17/20 = 0.85`, not a value below 0.8 as the claim (and the
repository's own `test_airmass_penalty_low_altitude`) requires. -/
theorem airmass_penalty_scenario_c :
    calculate_airmass_penalty 1 = 1 ∧
    calculate_airmass_penalty 3 = 17/20 ∧
    ¬ calculate_airmass_penalty 3 < 4/5 := by
  norm_num [calculate_airmass_penalty, linear_interpolate]

/-- C9 counterexample: positive weights summing to `1.005` are within the
engine's `0.01` tolerance, so construction leaves them untouched and the
effective weights do not sum to 1. -/
theorem weights_within_tolerance_not_normalized :
    0 < offWeights.temperature_differential ∧
    0 < offWeights.wind_stability ∧
    0 < offWeights.humidity ∧
    0 < offWeights.cloud_cover ∧
    0 < offWeights.jet_stream ∧
    (scoringEngineInit (some offWeights)).total = 201/200 ∧
    (scoringEngineInit (some offWeights)).total ≠ 1 := by
  have habs : |(1 : ℚ)/200| = 1/200 :=
    abs_of_nonneg (by norm_num : (0 : ℚ) ≤ 1/200)
  norm_num [scoringEngineInit, offWeights, Weights.total, habs]

/-- C3 counterexample: a maximal run of two qualifying samples at hourly
cadence with `min_duration_hours = 2` is not emitted by the per-target
imaging-window search, because that search compares the run's timestamp span
(1 hour) rather than its member count (2) against the minimum duration. -/
theorem altitude_window_count_counterexample :
    (∀ v ∈ ([exV0, exV1] : List VisibilityEntry), is_suitable 30 40 v = true) ∧
    exV1.forecast.timestamp = exV0.forecast.timestamp + 1 ∧
    2 ≤ ([exV0, exV1] : List VisibilityEntry).length ∧
    find_altitude_windows [exV0, exV1] 30 2 40 = [] := by
  norm_num [find_altitude_windows, faw_aux, is_suitable, window_duration_hours,
    exV0, exV1, exF0, exF1, List.getLast?, Bool.and_eq_true, decide_eq_true_eq]

/-- Round-half-even of a rational never falls below the floor. -/
theorem floor_le_roundHalfEven (q : ℚ) : ⌊q⌋ ≤ roundHalfEven q := by
  unfold roundHalfEven
  split_ifs <;> omega

/-- Round-half-even of a rational never exceeds the ceiling. -/
theorem roundHalfEven_le_ceil (q : ℚ) : roundHalfEven q ≤ ⌈q⌉ := by
  unfold roundHalfEven
  have hbase : ⌊q⌋ ≤ ⌈q⌉ := Int.floor_le_ceil q
  have hlift : (1 : ℚ)/2 ≤ q - ⌊q⌋ → ⌊q⌋ + 1 ≤ ⌈q⌉ := by
    intro h
    have hlt : ((⌊q⌋ : ℚ)) < q := by linarith
    exact Int.add_one_le_iff.mpr (Int.lt_ceil.mpr hlt)
  split_ifs with h1 h2 h3
  · exact hbase
  · exact hlift (by linarith)
  · exact hbase
  · exact hlift (by linarith)

/-- The Python `round(x, 1)` of a rational in `[0, 100]` stays in `[0, 100]`. -/
theorem pythonRound1_mem_Icc {q : ℚ} (h0 : 0 ≤ q) (h1 : q ≤ 100) :
    0 ≤ pythonRound1 q ∧ pythonRound1 q ≤ 100 := by
  unfold pythonRound1
  have hfloor : (0 : ℤ) ≤ ⌊10 * q⌋ := Int.le_floor.mpr (by push_cast; linarith)
  have hceil : ⌈10 * q⌉ ≤ (1000 : ℤ) := Int.ceil_le.mpr (by push_cast; linarith)
  have hlo : (0 : ℤ) ≤ roundHalfEven (10 * q) :=
    le_trans hfloor (floor_le_roundHalfEven _)
  have hhi : roundHalfEven (10 * q) ≤ (1000 : ℤ) :=
    le_trans (roundHalfEven_le_ceil _) hceil
  constructor
  · exact div_nonneg (by exact_mod_cast hlo) (by norm_num)
  · rw [div_le_iff (by norm_num : (0 : ℚ) < 10)]
    calc ((roundHalfEven (10 * q) : ℚ)) ≤ 1000 := by exact_mod_cast hhi
    _ = 100 * 10 := by norm_num

/-- C2: for every weather sample, every moon illumination and altitude, every
optional airmass and deep-sky flag, and every positive weight configuration
given at engine construction, the total score is clamped to `[0, 100]` before
the final one-decimal rounding, so it lies in `[0, 100]`; the embedded
computation is total, mirroring the absence of exceptions. -/
theorem calculate_score_total_in_range
    (w : Weights) (weather : WeatherData) (moon_illumination moon_altitude : ℚ)
    (airmass : Option ℚ) (is_deep_sky : Bool)
    (hw : 0 < w.temperature_differential ∧ 0 < w.wind_stability ∧
      0 < w.humidity ∧ 0 < w.cloud_cover ∧ 0 < w.jet_stream) :
    0 ≤ (calculate_score (scoringEngineInit (some w)) weather
          moon_illumination moon_altitude airmass is_deep_sky).total_score ∧
    (calculate_score (scoringEngineInit (some w)) weather
          moon_illumination moon_altitude airmass is_deep_sky).total_score ≤ 100 := by
  obtain ⟨x, hx⟩ : ∃ x, (calculate_score (scoringEngineInit (some w)) weather
      moon_illumination moon_altitude airmass is_deep_sky).total_score
        = pythonRound1 (max 0 (min 100 x)) := ⟨_, rfl⟩
  rw [hx]
  exact pythonRound1_mem_Icc (le_max_left _ _) (max_le (by norm_num) (min_le_left _ _))

/-- Witness for `calculate_score_total_in_range` at the default weights and the
condensation-risk sample. -/
theorem calculate_score_total_in_range_witness :
    0 ≤ (calculate_score (scoringEngineInit (some DEFAULT_WEIGHTS)) condensationW
          0 (-90) none false).total_score ∧
    (calculate_score (scoringEngineInit (some DEFAULT_WEIGHTS)) condensationW
          0 (-90) none false).total_score ≤ 100 :=
  calculate_score_total_in_range DEFAULT_WEIGHTS condensationW 0 (-90) none false
    (by norm_num [DEFAULT_WEIGHTS])

/-- C8: whenever the moon is at or below the horizon or the target is not a
deep-sky object, the moon penalty multiplier is exactly 1 for every
illumination, and `calculate_score` records no "moon" entry in its penalty
map. -/
theorem moon_penalty_neutral_cases
    (illumination moon_altitude : ℚ) (is_deep_sky : Bool)
    (w : Weights) (weather : WeatherData) (airmass : Option ℚ)
    (h : moon_altitude ≤ 0 ∨ is_deep_sky = false) :
    calculate_moon_penalty illumination moon_altitude is_deep_sky = 1 ∧
    (calculate_score w weather illumination moon_altitude airmass
        is_deep_sky).penalties.moon = none := by
  have h1 : calculate_moon_penalty illumination moon_altitude is_deep_sky = 1 := by
    unfold calculate_moon_penalty
    rcases h with h | h
    · rw [if_pos h]
    · by_cases ha : moon_altitude ≤ 0
      · rw [if_pos ha]
      · rw [if_neg ha, if_pos h]
  refine ⟨h1, ?_⟩
  have h2 : (calculate_score w weather illumination moon_altitude airmass
      is_deep_sky).penalties.moon
        = (if calculate_moon_penalty illumination moon_altitude is_deep_sky < 1 then
            some (calculate_moon_penalty illumination moon_altitude is_deep_sky)
          else none) := rfl
  rw [h2, h1]
  norm_num

/-- Witness for `moon_penalty_neutral_cases`: full moon below the horizon. -/
theorem moon_penalty_neutral_cases_witness :
    calculate_moon_penalty 100 (-10) true = 1 ∧
    (calculate_score DEFAULT_WEIGHTS condensationW 100 (-10) none
        true).penalties.moon = none :=
  moon_penalty_neutral_cases 100 (-10) true DEFAULT_WEIGHTS condensationW none
    (Or.inl (by norm_num))

/-- C9 (amended): for positive weights, construction leaves the effective
weight sum within `0.01` of 1; it normalizes to an exact sum of 1 precisely
when the given sum deviates from 1 by more than `0.01`, and otherwise keeps
the given weights unchanged. -/
theorem engine_weights_near_one (w : Weights)
    (hw : 0 < w.temperature_differential ∧ 0 < w.wind_stability ∧
      0 < w.humidity ∧ 0 < w.cloud_cover ∧ 0 < w.jet_stream) :
    |(scoringEngineInit (some w)).total - 1| ≤ 1/100 ∧
    (1/100 < |w.total - 1| → (scoringEngineInit (some w)).total = 1) ∧
    (|w.total - 1| ≤ 1/100 → scoringEngineInit (some w) = w) := by
  obtain ⟨h1, h2, h3, h4, h5⟩ := hw
  have htot : 0 < w.total := by unfold Weights.total; linarith
  have hinit : scoringEngineInit (some w) =
      if 1/100 < |w.total - 1| then
        ⟨w.temperature_differential / w.total, w.wind_stability / w.total,
         w.humidity / w.total, w.cloud_cover / w.total, w.jet_stream / w.total⟩
      else w := rfl
  by_cases hc : 1/100 < |w.total - 1|
  · rw [hinit, if_pos hc]
    have hsum : (⟨w.temperature_differential / w.total, w.wind_stability / w.total,
        w.humidity / w.total, w.cloud_cover / w.total,
        w.jet_stream / w.total⟩ : Weights).total = 1 := by
      unfold Weights.total
      rw [div_add_div_same, div_add_div_same, div_add_div_same, div_add_div_same]
      exact div_self (ne_of_gt htot)
    refine ⟨?_, fun _ => hsum, fun hle => absurd hc (not_lt.mpr hle)⟩
    rw [hsum]
    norm_num
  · rw [hinit, if_neg hc]
    refine ⟨not_lt.mp hc, fun hgt => absurd hgt hc, fun _ => rfl⟩

/-- Witness for `engine_weights_near_one` at the default weights. -/
theorem engine_weights_near_one_witness :
    |(scoringEngineInit (some DEFAULT_WEIGHTS)).total - 1| ≤ 1/100 ∧
    (1/100 < |DEFAULT_WEIGHTS.total - 1| →
      (scoringEngineInit (some DEFAULT_WEIGHTS)).total = 1) ∧
    (|DEFAULT_WEIGHTS.total - 1| ≤ 1/100 →
      scoringEngineInit (some DEFAULT_WEIGHTS) = DEFAULT_WEIGHTS) :=
  engine_weights_near_one DEFAULT_WEIGHTS (by norm_num [DEFAULT_WEIGHTS])

/-- On a nonempty accumulated run followed by samples that each arrive within
2 hours of their predecessor, the forecast-mode loop accumulates everything
into one run and emits it exactly when its member count reaches `min_hours`. -/
theorem fcw_aux_chain (min_hours : ℕ) (rest : List SeeingForecast) :
    ∀ cur : List SeeingForecast, cur ≠ [] →
      List.Chain' (fun a b => b.timestamp - a.timestamp ≤ 2) (cur ++ rest) →
      fcw_aux min_hours cur rest =
        if min_hours ≤ (cur ++ rest).length then [create_window (cur ++ rest)] else [] := by
  induction rest with
  | nil =>
      intro cur _ _
      simp only [fcw_aux, List.append_nil]
  | cons f rest ih =>
      intro cur hne hch
      cases hcl : cur.getLast? with
      | none => exact absurd (List.getLast?_eq_none_iff.mp hcl) hne
      | some last_f =>
          have hrel : f.timestamp - last_f.timestamp ≤ 2 := by
            have h3 := (List.chain'_append.mp hch).2.2
            exact h3 last_f (Option.mem_def.mpr hcl) f (Option.mem_def.mpr rfl)
          have hassoc : (cur ++ [f]) ++ rest = cur ++ f :: rest := by
            rw [List.append_assoc, List.singleton_append]
          simp only [fcw_aux, hcl, if_pos hrel]
          rw [ih (cur ++ [f]) (by simp) (by rw [hassoc]; exact hch), hassoc]

/-- On a nonempty accumulated run followed by suitable samples each within
2 hours of their predecessor, the timelapse-mode loop accumulates everything
into one run and emits it exactly when its timestamp span reaches
`min_duration_hours`. -/
theorem faw_aux_chain (min_altitude min_duration_hours min_score : ℚ)
    (rest : List VisibilityEntry) :
    ∀ cur : List VisibilityEntry, cur ≠ [] →
      List.Chain' (fun a b => b.forecast.timestamp - a.forecast.timestamp ≤ 2) (cur ++ rest) →
      (∀ v ∈ rest, is_suitable min_altitude min_score v = true) →
      faw_aux min_altitude min_duration_hours min_score cur rest =
        if min_duration_hours ≤ window_duration_hours (cur ++ rest) then [cur ++ rest]
        else [] := by
  induction rest with
  | nil =>
      intro cur hne _ _
      simp only [faw_aux, List.append_nil]
      rw [if_congr (and_iff_right hne) rfl rfl]
  | cons v rest ih =>
      intro cur hne hch hsuit
      have hv : is_suitable min_altitude min_score v = true :=
        hsuit v (List.mem_cons_self v rest)
      cases hcl : cur.getLast? with
      | none => exact absurd (List.getLast?_eq_none_iff.mp hcl) hne
      | some last_v =>
          have hrel : v.forecast.timestamp - last_v.forecast.timestamp ≤ 2 := by
            have h3 := (List.chain'_append.mp hch).2.2
            exact h3 last_v (Option.mem_def.mpr hcl) v (Option.mem_def.mpr rfl)
          have hassoc : (cur ++ [v]) ++ rest = cur ++ v :: rest := by
            rw [List.append_assoc, List.singleton_append]
          simp only [faw_aux, hv, if_true, hcl, if_pos hrel]
          rw [ih (cur ++ [v]) (by simp) (by rw [hassoc]; exact hch)
              (fun x hx => hsuit x (List.mem_cons_of_mem v hx)), hassoc]

/-- C3 (amended): for a nonempty run of qualifying samples at hourly cadence,
the generic best-window search emits the whole run as one window exactly when
its member count reaches `min_hours`, while the per-target imaging-window
search emits the whole run exactly when its timestamp span (1 hour for a
single sample, member count minus one hours at hourly cadence) reaches
`min_duration_hours`. -/
theorem window_emission_criteria (l : List VisibilityEntry)
    (min_altitude min_score min_duration : ℚ) (min_hours : ℕ)
    (hne : l ≠ [])
    (hchain : List.Chain' (fun a b => b.forecast.timestamp = a.forecast.timestamp + 1) l)
    (hsuit : ∀ v ∈ l, is_suitable min_altitude min_score v = true) :
    find_contiguous_windows (l.map VisibilityEntry.forecast) min_hours =
      (if min_hours ≤ l.length then [create_window (l.map VisibilityEntry.forecast)]
        else []) ∧
    find_altitude_windows l min_altitude min_duration min_score =
      (if min_duration ≤ window_duration_hours l then [l] else []) := by
  have hch2 : List.Chain'
      (fun a b : VisibilityEntry => b.forecast.timestamp - a.forecast.timestamp ≤ 2) l :=
    hchain.imp (fun a b h => by rw [h]; linarith)
  cases l with
  | nil => exact absurd rfl hne
  | cons v rest =>
      constructor
      · have hchm : List.Chain' (fun a b : SeeingForecast => b.timestamp - a.timestamp ≤ 2)
            (v.forecast :: rest.map VisibilityEntry.forecast) := by
          rw [← List.map_cons, List.chain'_map]
          exact hch2
        simp only [List.map_cons, find_contiguous_windows, List.isEmpty_cons,
          Bool.false_eq_true, if_false, fcw_aux, List.getLast?_nil]
        rw [fcw_aux_chain min_hours (rest.map VisibilityEntry.forecast) [v.forecast]
            (List.cons_ne_nil _ _) (by rw [List.singleton_append]; exact hchm)]
        simp [List.singleton_append, List.length_cons, List.length_map]
      · have hv : is_suitable min_altitude min_score v = true :=
          hsuit v (List.mem_cons_self v rest)
        simp only [find_altitude_windows, faw_aux, hv, if_true, List.getLast?_nil]
        rw [faw_aux_chain min_altitude min_duration min_score rest [v]
            (List.cons_ne_nil _ _) (by rw [List.singleton_append]; exact hch2)
            (fun x hx => hsuit x (List.mem_cons_of_mem v hx))]
        simp [List.singleton_append]

/-- Witness for `window_emission_criteria`: the two-sample hourly run, where
the generic mode emits the window (2 members) and the per-target mode does not
(span 1 hour). -/
theorem window_emission_criteria_witness :
    (find_contiguous_windows (([exV0, exV1] : List VisibilityEntry).map
        VisibilityEntry.forecast) 2 =
      (if 2 ≤ ([exV0, exV1] : List VisibilityEntry).length then
        [create_window (([exV0, exV1] : List VisibilityEntry).map
          VisibilityEntry.forecast)] else [])) ∧
    find_altitude_windows [exV0, exV1] 30 2 40 =
      (if (2 : ℚ) ≤ window_duration_hours [exV0, exV1] then [[exV0, exV1]] else []) :=
  window_emission_criteria [exV0, exV1] 30 40 2 2
    (by simp)
    (by norm_num [List.chain'_cons, exV0, exV1, exF0, exF1])
    (by norm_num [is_suitable, exV0, exV1, exF0, exF1, decide_eq_true_eq])

/-- When every sample is unsuitable, the timelapse-mode loop started with an
empty run never accumulates and returns no window. -/
theorem faw_aux_all_unsuitable (min_altitude min_duration_hours min_score : ℚ)
    (rest : List VisibilityEntry)
    (h : ∀ v ∈ rest, is_suitable min_altitude min_score v = false) :
    faw_aux min_altitude min_duration_hours min_score [] rest = [] := by
  induction rest with
  | nil => simp [faw_aux]
  | cons v rest ih =>
      have hv : is_suitable min_altitude min_score v = false :=
        h v (List.mem_cons_self v rest)
      simp only [faw_aux, hv, Bool.false_eq_true, if_false]
      simp [ih (fun x hx => h x (List.mem_cons_of_mem v hx))]

/-- C10: on an empty forecast sequence, or one in which no sample qualifies,
the best-window search returns `none` and the per-target imaging-window search
returns the empty list; both embedded functions are total, mirroring the
absence of exceptions. -/
theorem no_qualifying_sample_no_window
    (forecasts : List SeeingForecast) (min_score : ℚ) (min_duration_hours : ℕ)
    (W : Type) (target : Option Unit) (visibility_data : List VisibilityEntry)
    (min_altitude min_duration target_min_score : ℚ)
    (create : List VisibilityEntry → Option W) (key : W → ℚ)
    (hf : ∀ f ∈ forecasts, ¬(f.is_night = true ∧ min_score ≤ f.total_score))
    (hv : ∀ v ∈ visibility_data, is_suitable min_altitude target_min_score v = false) :
    find_best_window forecasts min_score min_duration_hours = none ∧
    find_imaging_windows target visibility_data min_altitude min_duration
      target_min_score create key = [] := by
  constructor
  · have hfil : forecasts.filter
        (fun f => f.is_night && decide (min_score ≤ f.total_score)) = [] := by
      rw [List.filter_eq_nil_iff]
      intro a ha
      simp only [Bool.and_eq_true, decide_eq_true_eq]
      exact hf a ha
    by_cases he : forecasts.isEmpty = true
    · simp [find_best_window, he]
    · simp only [find_best_window, he, Bool.false_eq_true, if_false, hfil,
        List.length_nil]
      by_cases hmd : 0 < min_duration_hours
      · rw [if_pos hmd]
      · have h0 : min_duration_hours = 0 := by omega
        subst h0
        simp [find_contiguous_windows]
  · cases target with
    | none => rfl
    | some _ =>
        by_cases he : visibility_data.isEmpty = true
        · simp [find_imaging_windows, he]
        · have hwin : find_altitude_windows visibility_data min_altitude min_duration
              target_min_score = [] :=
            faw_aux_all_unsuitable _ _ _ visibility_data hv
          simp [find_imaging_windows, he, hwin, sort_desc_by]

/-- Witness for `no_qualifying_sample_no_window` on empty inputs. -/
theorem no_qualifying_sample_no_window_witness :
    find_best_window ([] : List SeeingForecast) 50 2 = none ∧
    @find_imaging_windows ℕ none ([] : List VisibilityEntry) 30 4 40
      (fun _ => none) (fun _ => 0) = [] :=
  no_qualifying_sample_no_window [] 50 2 ℕ none [] 30 4 40 (fun _ => none) (fun _ => 0)
    (by simp) (by simp)
